import Mathlib

/- Shallow embedding of the authentication and token-lifecycle core of the
   ikv-secrets client (auth.py, keyring_store.py, client.py, config.py).
   Machine integers are modelled as Int, JSON values as an inductive type,
   the token store as explicit state, and fallible operations as Option. -/

/-- Json models the JSON values handled by the token store: strings, integers
and objects (keyed field lists). No other JSON form occurs in tokens written
by this client; stored data of any other shape is covered by the corrupt and
unreadable storage states below. -/
inductive Json where
  | str (s : String)
  | int (n : Int)
  | obj (fields : List (String × Json))

/-- getField models Python dict key lookup on a decoded JSON object. -/
def getField : List (String × Json) → String → Option Json
  | [], _ => none
  | (k, v) :: rest, key => if key = k then some v else getField rest key

/-- TokenInfo mirrors the dataclass in keyring_store.py lines 60 to 93:
an opaque access token, an absolute unix expiry timestamp and the tenant. -/
structure TokenInfo where
  access_token : String
  expires_at : Int
  tenant : String
  deriving DecidableEq

/-- Mirrors TokenInfo.is_expired, keyring_store.py lines 67 to 70: the
current time is compared against expires_at minus a 300 second buffer. -/
def TokenInfo.is_expired (t : TokenInfo) (now : Int) : Bool :=
  decide (now > t.expires_at - 300)

/-- Mirrors TokenInfo.to_json, keyring_store.py lines 77 to 83. -/
def TokenInfo.to_json (t : TokenInfo) : Json :=
  .obj [("access_token", .str t.access_token),
        ("expires_at", .int t.expires_at),
        ("tenant", .str t.tenant)]

/-- Mirrors TokenInfo.from_json, keyring_store.py lines 85 to 93. A missing
key raises KeyError in Python, which every caller absorbs; that case is
modelled as none. -/
def TokenInfo.from_json (j : Json) : Option TokenInfo :=
  match j with
  | .obj fields =>
    match getField fields ("access_token"), getField fields ("expires_at"),
          getField fields ("tenant") with
    | some (.str a), some (.int e), some (.str tn) =>
      some { access_token := a, expires_at := e, tenant := tn }
    | _, _, _ => none
  | _ => none

/-- KeyringCell models what keyring.get_password can yield for one tenant:
no entry, a stored string decoding to a JSON value, a stored string that is
not valid JSON, or a backend that raises on access. -/
inductive KeyringCell where
  | absent
  | stored (j : Json)
  | corrupt
  | unavailable

/-- FileState models the tokens.json file: missing, readable with a decoded
top-level object (a map from tenant name to JSON value), or unreadable
(IOError or JSONDecodeError on read). -/
inductive FileState where
  | absent
  | readable (entries : String → Option Json)
  | unreadable

/-- Mirrors _load_tokens_file, keyring_store.py lines 42 to 49: a missing or
unreadable file yields the empty dict. -/
def _load_tokens_file : FileState → String → Option Json
  | .absent, _ => none
  | .readable entries, tenant => entries tenant
  | .unreadable, _ => none

/-- StoreState is the environment the token store operates in: the outcome
of the _use_file_fallback probe (keyring_store.py lines 28 to 39), the
keyring contents per tenant, and the tokens file. -/
structure StoreState where
  useFileFallback : Bool
  keyring : String → KeyringCell
  file : FileState

/-- Mirrors get_token, keyring_store.py lines 96 to 117. The whole body is
wrapped in a try block whose except clause returns None; the absent, corrupt
and unavailable keyring cases and every decode failure therefore yield none. -/
def get_token (st : StoreState) (tenant : String) : Option TokenInfo :=
  if st.useFileFallback then
    match _load_tokens_file st.file tenant with
    | some j => TokenInfo.from_json j
    | none => none
  else
    match st.keyring tenant with
    | .stored j => TokenInfo.from_json j
    | .absent => none
    | .corrupt => none
    | .unavailable => none

/-- Mirrors save_token, keyring_store.py lines 120 to 133: in file-fallback
mode the loaded dict is updated at the tenant key and written back; in
keyring mode set_password stores the serialized token under the tenant. -/
def save_token (st : StoreState) (tenant : String) (tok : TokenInfo) : StoreState :=
  if st.useFileFallback then
    { st with file := .readable (fun t =>
        if t = tenant then some (TokenInfo.to_json tok)
        else _load_tokens_file st.file t) }
  else
    { st with keyring := fun t =>
        if t = tenant then .stored (TokenInfo.to_json tok)
        else st.keyring t }

/-- Serialization round trip for TokenInfo. -/
theorem from_json_to_json (tok : TokenInfo) :
    TokenInfo.from_json (TokenInfo.to_json tok) = some tok := rfl

/-- C3: is_expired is true exactly when now exceeds expires_at - 300; at
exactly expires_at - 300 the token is not expired, one second later it is. -/
theorem is_expired_iff (t : TokenInfo) (now : Int) :
    (t.is_expired now = true ↔ now > t.expires_at - 300)
  ∧ t.is_expired (t.expires_at - 300) = false
  ∧ t.is_expired (t.expires_at - 300 + 1) = true := by
  refine ⟨?_, ?_, ?_⟩
  · simp [TokenInfo.is_expired]
  · simp [TokenInfo.is_expired]
  · simp [TokenInfo.is_expired]

/-- C4: saving a token under a tenant and then getting that tenant returns a
token equal in all three fields, in both the keyring and file backends. -/
theorem save_get_roundtrip (st : StoreState) (tenant : String) (tok : TokenInfo) :
    get_token (save_token st tenant tok) tenant = some tok := by
  cases h : st.useFileFallback <;>
    simp [get_token, save_token, h, _load_tokens_file, from_json_to_json]

/-- C5: get_token absorbs storage-layer faults: an unreadable tokens file, an
unavailable or corrupt keyring entry, and stored data that does not decode as
a token all yield none instead of an error. -/
theorem get_token_absorbs_storage_faults (st : StoreState) (tenant : String) :
    (st.useFileFallback = true → st.file = .unreadable → get_token st tenant = none)
  ∧ (st.useFileFallback = false → st.keyring tenant = .unavailable → get_token st tenant = none)
  ∧ (st.useFileFallback = false → st.keyring tenant = .corrupt → get_token st tenant = none)
  ∧ (st.useFileFallback = true → ∀ j, _load_tokens_file st.file tenant = some j →
       TokenInfo.from_json j = none → get_token st tenant = none)
  ∧ (st.useFileFallback = false → ∀ j, st.keyring tenant = .stored j →
       TokenInfo.from_json j = none → get_token st tenant = none) := by
  refine ⟨?_, ?_, ?_, ?_, ?_⟩
  · intro hm hf; simp [get_token, hm, hf, _load_tokens_file]
  · intro hm hk; simp [get_token, hm, hk]
  · intro hm hk; simp [get_token, hm, hk]
  · intro hm j hj hfj; simp [get_token, hm, hj, hfj]
  · intro hm j hk hfj; simp [get_token, hm, hk, hfj]

/-- faultyState is a concrete store whose tokens file is unreadable. -/
def faultyState : StoreState :=
  { useFileFallback := true
    keyring := fun _ => .absent
    file := .unreadable }

/-- Witness for get_token_absorbs_storage_faults at a concrete faulty store. -/
theorem get_token_absorbs_storage_faults_witness :
    get_token faultyState ("acme") = none :=
  (get_token_absorbs_storage_faults faultyState ("acme")).1 rfl rfl

/-- C10: saving a token for one tenant leaves the retrievable token of every
other tenant unchanged, in both the keyring and file backends. -/
theorem save_preserves_other_tenants (st : StoreState) (t t' : String)
    (tok : TokenInfo) (h : t' ≠ t) :
    get_token (save_token st t tok) t' = get_token st t' := by
  cases hm : st.useFileFallback <;>
    simp [get_token, save_token, hm, _load_tokens_file, h]

/-- wTok and wState are concrete inputs used by the frame witness. -/
def wTok : TokenInfo := { access_token := ("btok"), expires_at := 50, tenant := ("beta") }

def wState : StoreState :=
  { useFileFallback := true
    keyring := fun _ => .absent
    file := .readable (fun t => if t = ("beta") then some (TokenInfo.to_json wTok) else none) }

/-- Witness for save_preserves_other_tenants at a concrete store. -/
theorem save_preserves_other_tenants_witness :
    get_token (save_token wState ("acme") ⟨("atok"), 99, ("acme")⟩) ("beta")
      = get_token wState ("beta")
  ∧ get_token wState ("beta") = some wTok :=
  ⟨save_preserves_other_tenants wState ("acme") ("beta") ⟨("atok"), 99, ("acme")⟩
    (by decide), rfl⟩

/-- QueryParams models the parsed query string of the single callback
request (urllib.parse.parse_qs drops keys with empty values; each field is
the first value of its key when present). -/
structure QueryParams where
  code : Option String
  state : Option String
  error : Option String
  error_description : Option String

/-- AuthResult models the auth_result dict shared between the handler and
the foreground flow (auth.py line 106); it starts empty and the handler
fills code and state, or error. -/
structure AuthResult where
  code : Option String
  state : Option String
  error : Option String
  deriving DecidableEq

/-- The initial, empty auth_result: what the foreground flow observes when
no request arrives before the timeout. -/
def AuthResult.empty : AuthResult :=
  { code := none, state := none, error := none }

/-- Mirrors CallbackHandler.do_GET, auth.py lines 109 to 176: on a code
parameter respond 200 and record code and echoed state; otherwise on an
error parameter respond 400 and record error_description (or error);
otherwise respond 400 recording nothing. Every branch ends by setting the
callback_received event, modelled by the final Bool. -/
def handleCallback (p : QueryParams) : Nat × AuthResult × Bool :=
  match p.code with
  | some c =>
    (200, { code := some c, state := some (p.state.getD ("")), error := none }, true)
  | none =>
    match p.error with
    | some e =>
      (400, { code := none, state := none, error := some (p.error_description.getD e) }, true)
    | none =>
      (400, { code := none, state := none, error := none }, true)

/-- LoginStep is the decision the foreground flow takes after the wait:
raise AuthError with a message, or proceed to the token exchange. -/
inductive LoginStep where
  | failAuth (msg : String)
  | exchange (code : String)
  deriving DecidableEq

/-- Mirrors _browser_login after the wait, auth.py lines 217 to 234: an
error entry raises, a missing code raises the timeout message, otherwise the
flow proceeds to exchange the code. The generated CSRF state (auth.py line
192) is in scope but never consulted on this path. -/
def afterCallback (state : String) (r : AuthResult) : LoginStep :=
  match r.error with
  | some e => .failAuth (("Authentication failed: ") ++ e)
  | none =>
    match r.code with
    | some c => .exchange c
    | none => .failAuth ("Authentication timed out - please try again")

/-- C1: with generated state xyz, a callback carrying code abc and a
mismatching echoed state wrong still proceeds to the token exchange; the
generated value is never compared with the echo. -/
theorem browser_login_ignores_state_mismatch :
    (handleCallback ⟨some ("abc"), some ("wrong"), none, none⟩).2.1.state = some ("wrong")
  ∧ afterCallback ("xyz") (handleCallback ⟨some ("abc"), some ("wrong"), none, none⟩).2.1
      = .exchange ("abc")
  ∧ (("wrong") : String) ≠ ("xyz") :=
  ⟨rfl, rfl, by decide⟩

/-- C9: a callback request with neither code nor error is answered 400 and
still signals completion, and the flow then fails with exactly the timeout
message, the same outcome a genuine timeout (empty auth_result) produces. -/
theorem empty_callback_yields_timeout_error (p : QueryParams) (g : String)
    (hc : p.code = none) (he : p.error = none) :
    handleCallback p = (400, AuthResult.empty, true)
  ∧ afterCallback g (handleCallback p).2.1
      = .failAuth ("Authentication timed out - please try again")
  ∧ afterCallback g (handleCallback p).2.1 = afterCallback g AuthResult.empty := by
  refine ⟨?_, ?_, ?_⟩ <;> simp [handleCallback, afterCallback, AuthResult.empty, hc, he]

/-- Witness for empty_callback_yields_timeout_error at a concrete request. -/
theorem empty_callback_yields_timeout_error_witness :
    handleCallback ⟨none, some ("xyz"), none, none⟩ = (400, AuthResult.empty, true)
  ∧ afterCallback ("xyz") (handleCallback ⟨none, some ("xyz"), none, none⟩).2.1
      = .failAuth ("Authentication timed out - please try again")
  ∧ afterCallback ("xyz") (handleCallback ⟨none, some ("xyz"), none, none⟩).2.1
      = afterCallback ("xyz") AuthResult.empty :=
  empty_callback_yields_timeout_error ⟨none, some ("xyz"), none, none⟩ ("xyz") rfl rfl

/-- TierBody models the JSON body of a vault response to the service-account
endpoint, as far as error rendering is concerned (client.py lines 149 to
155 show the fields the repo reads from a 403 body elsewhere). -/
structure TierBody where
  error : Option String
  required_tier : Option String
  current_tier : Option String
  deriving DecidableEq

/-- SALoginError is the error raised by the status dispatch of
_service_account_login: a plain AuthError (auth.py line 28) or the TierError
of client.py lines 28 to 34, which carries a message plus required and
current tier. -/
inductive SALoginError where
  | authError (msg : String)
  | tierError (msg required current : String)
  deriving DecidableEq

/-- Discriminator for TierError values. -/
def SALoginError.isTierError : SALoginError → Bool
  | .tierError _ _ _ => true
  | _ => false

/-- Mirrors the status dispatch of _service_account_login, auth.py lines 281
to 284: 401 and 403 raise fixed-message AuthErrors; the response body is not
consulted. -/
def serviceAccountStatusError (status : Nat) (body : TierBody) : Option SALoginError :=
  if status = 401 then some (.authError ("Invalid service account credentials"))
  else if status = 403 then some (.authError ("Service accounts require Enterprise tier"))
  else none

/-- C2 counterexample: on a 403 whose body declares required enterprise and
current free, the raised error is a plain AuthError with a fixed message,
not a TierError carrying the tiers. -/
theorem service_account_403_not_tier_error :
    (serviceAccountStatusError 403
        ⟨some ("Service accounts require Enterprise tier"), some ("enterprise"), some ("free")⟩).map
        SALoginError.isTierError = some false
  ∧ serviceAccountStatusError 403
        ⟨some ("Service accounts require Enterprise tier"), some ("enterprise"), some ("free")⟩
      = some (.authError ("Service accounts require Enterprise tier")) :=
  ⟨rfl, rfl⟩

/-- C2 amended: for every response body, an HTTP 403 from the
service-account endpoint raises the plain AuthError with the fixed message
about Enterprise tier, ignoring the tier fields of the body. -/
theorem service_account_403_plain_auth_error (body : TierBody) :
    serviceAccountStatusError 403 body
      = some (.authError ("Service accounts require Enterprise tier")) := rfl

/-- ExchangeData models the JSON body of a successful token-exchange
response: the access token plus optional absolute and relative expiries. -/
structure ExchangeData where
  access_token : String
  expires_at : Option Int
  expires_in : Option Int
  deriving DecidableEq

/-- Mirrors the TokenInfo construction of _browser_login, auth.py lines 249
to 253: expires_at is the absolute server value when present, else now plus
the relative value, else now plus 14400. -/
def mkBrowserToken (tenant : String) (now : Int) (d : ExchangeData) : TokenInfo :=
  { access_token := d.access_token
    expires_at := d.expires_at.getD (now + d.expires_in.getD 14400)
    tenant := tenant }

/-- LoginEffect models the observable actions of the tail of
_browser_login: persisting the token, persisting the tenant-URL mapping,
and returning the token to the caller. -/
inductive LoginEffect where
  | saveTok (tenant : String) (tok : TokenInfo)
  | saveTenantCfg (tenant url : String)
  | ret (tok : TokenInfo)
  deriving DecidableEq

/-- Mirrors the success tail of _browser_login, auth.py lines 249 to 260, as
the ordered list of its effects. -/
def browserLoginSuccessTrace (tenant url : String) (now : Int) (d : ExchangeData) :
    List LoginEffect :=
  let tok := mkBrowserToken tenant now d
  [.saveTok tenant tok, .saveTenantCfg tenant url, .ret tok]

/-- C6: the constructed expires_at is the server absolute value when
present, else now plus the server relative value, else now plus 14400; and
the success tail persists the token and the tenant-URL mapping strictly
before returning. -/
theorem browser_token_expiry_and_persistence (tenant url : String) (now : Int)
    (d : ExchangeData) :
    (∀ e, d.expires_at = some e → (mkBrowserToken tenant now d).expires_at = e)
  ∧ (∀ i, d.expires_at = none → d.expires_in = some i →
       (mkBrowserToken tenant now d).expires_at = now + i)
  ∧ (d.expires_at = none → d.expires_in = none →
       (mkBrowserToken tenant now d).expires_at = now + 14400)
  ∧ (browserLoginSuccessTrace tenant url now d)[0]?
      = some (.saveTok tenant (mkBrowserToken tenant now d))
  ∧ (browserLoginSuccessTrace tenant url now d)[1]? = some (.saveTenantCfg tenant url)
  ∧ (browserLoginSuccessTrace tenant url now d)[2]?
      = some (.ret (mkBrowserToken tenant now d))
  ∧ (browserLoginSuccessTrace tenant url now d).length = 3 := by
  refine ⟨?_, ?_, ?_, rfl, rfl, rfl, rfl⟩
  · intro e he; simp [mkBrowserToken, he]
  · intro i ha hi; simp [mkBrowserToken, ha, hi]
  · intro ha hi; simp [mkBrowserToken, ha, hi]

/-- Witness for browser_token_expiry_and_persistence covering all three
expiry cases at concrete data. -/
theorem browser_token_expiry_and_persistence_witness :
    (mkBrowserToken ("acme") 1000 ⟨("tok"), some 5000, some 60⟩).expires_at = 5000
  ∧ (mkBrowserToken ("acme") 1000 ⟨("tok"), none, some 60⟩).expires_at = 1060
  ∧ (mkBrowserToken ("acme") 1000 ⟨("tok"), none, none⟩).expires_at = 15400 :=
  ⟨(browser_token_expiry_and_persistence ("acme") ("u") 1000
      ⟨("tok"), some 5000, some 60⟩).1 5000 rfl,
   (browser_token_expiry_and_persistence ("acme") ("u") 1000
      ⟨("tok"), none, some 60⟩).2.1 60 rfl rfl,
   (browser_token_expiry_and_persistence ("acme") ("u") 1000
      ⟨("tok"), none, none⟩).2.2.1 rfl rfl⟩

/-- FsOp models the filesystem operations of _save_tokens_file,
keyring_store.py lines 52 to 57: CONFIG_DIR.mkdir with the process default
mode, TOKENS_FILE.write_text flushing the full serialized store (creating
the file with the process default, non-restrictive mode when absent), and
os.chmod to owner-only 0o600. -/
inductive FsOp where
  | mkdirDefault
  | writeAll
  | chmodOwnerOnly
  deriving DecidableEq

/-- FileObs is the externally observable condition of the tokens file:
whether it currently holds secret content and whether its mode is
owner-only. -/
structure FileObs where
  hasSecret : Bool
  ownerOnly : Bool
  deriving DecidableEq

/-- Effect of one filesystem operation on the observable file condition. -/
def applyFsOp (o : FileObs) : FsOp → FileObs
  | .mkdirDefault => o
  | .writeAll => { o with hasSecret := true }
  | .chmodOwnerOnly => { o with ownerOnly := true }

/-- The operation order of _save_tokens_file, keyring_store.py lines 52 to
57: mkdir, then write_text, then chmod. -/
def saveTokensFileOps : List FsOp := [.mkdirDefault, .writeAll, .chmodOwnerOnly]

/-- Observable file condition after a sequence of operations. -/
def obsAfter (init : FileObs) (ops : List FsOp) : FileObs :=
  ops.foldl applyFsOp init

/-- A tokens file that does not yet exist: no content, and creation by
write_text gives it the process default (not owner-only) mode. -/
def freshFile : FileObs := { hasSecret := false, ownerOnly := false }

/-- C7: after the first two operations of _save_tokens_file on a fresh file
the file holds the full secret content while not owner-only; only the final
chmod makes it owner-only. -/
theorem save_tokens_file_world_readable_window :
    obsAfter freshFile (saveTokensFileOps.take 2)
      = { hasSecret := true, ownerOnly := false }
  ∧ obsAfter freshFile saveTokensFileOps = { hasSecret := true, ownerOnly := true } :=
  ⟨rfl, rfl⟩

/-- inPlaceWriteStates lists the file states observable during the
TOKENS_FILE.write_text call of _save_tokens_file: the old state, then the
truncated (not valid JSON) state between open and flush completion, then the
new state. Path.write_text opens the file in mode w, truncating in place; no
temporary file and rename is involved. -/
def inPlaceWriteStates (old : FileState) (newEntries : String → Option Json) :
    List FileState :=
  [old, .unreadable, .readable newEntries]

/-- Concrete old and new token-file contents used for the atomicity
counterexample. -/
def oldEntries : String → Option Json := fun t =>
  if t = ("acme") then some (TokenInfo.to_json ⟨("tok"), 100, ("acme")⟩) else none

def newEntries : String → Option Json := fun t =>
  if t = ("acme") then some (TokenInfo.to_json ⟨("tok2"), 200, ("acme")⟩) else none

/-- C8 counterexample: during an in-place rewrite of a store that held a
token for acme, the mid-write observable state is unreadable, and a reader
at that point sees no token for acme, although both the old and the new
contents hold one. -/
theorem inplace_write_unreadable_window :
    (inPlaceWriteStates (.readable oldEntries) newEntries)[1]? = some FileState.unreadable
  ∧ _load_tokens_file (FileState.readable oldEntries) ("acme")
      = some (TokenInfo.to_json ⟨("tok"), 100, ("acme")⟩)
  ∧ _load_tokens_file FileState.unreadable ("acme") = none
  ∧ _load_tokens_file (FileState.readable newEntries) ("acme")
      = some (TokenInfo.to_json ⟨("tok2"), 200, ("acme")⟩) :=
  ⟨rfl, rfl, rfl, rfl⟩

/-- C8 amended: every write of the token store file passes through an
observable unreadable intermediate state (in-place truncate and rewrite, not
write-temp-then-rename), and loading the store in that state yields no
token for any tenant. -/
theorem inplace_write_not_atomic (old : FileState) (entries : String → Option Json) :
    ∃ i : Nat, (inPlaceWriteStates old entries)[i]? = some FileState.unreadable
      ∧ ∀ tenant, _load_tokens_file FileState.unreadable tenant = none :=
  ⟨1, rfl, fun _ => rfl⟩
